import Mathlib

/-!
# Moonlight (Switch port): session controller of `src/main.c`

A shallow embedding of `main.c`: the helper functions `applist`, `get_app_id`,
`stream`, `pair_check` and the body of `main` (start-up sequence and command
dispatch loop).  Calls into the libraries (`gs_*`, `platform_*`, `Li*`, `gfx*`,
`hid*`) are recorded as events of a trace; what those calls return is read from
an explicit record of responses (`Startup` for the start-up sequence, `Frame`
for one iteration of the loop).  C `int` is `Int`; where a value is produced by
arithmetic it is wrapped to 32 bits with `to_int`.
-/

namespace Moonlight

/-! ## Constants and data -/

/-- The data directory, `MOONLIGHT_DATA_DIR` of `main.c`. -/
def MOONLIGHT_DATA_DIR : String := "sdmc:/switch/moonlight-switch/"

/-- Constants that `main.c` uses and that are declared in headers outside it
(`errors.h`, libnx `hid.h`, `video.h`, `config.h`).  Their values are
parameters of the model: no proof relies on a particular value. -/
structure Constants where
  GS_OK : Int
  GS_OUT_OF_MEMORY : Int
  GS_ERROR : Int
  GS_INVALID : Int
  GS_UNSUPPORTED_VERSION : Int
  GS_NOT_SUPPORTED_4K : Int
  GS_NOT_SUPPORTED_MODE : Int
  KEY_A : Nat
  KEY_B : Nat
  KEY_X : Nat
  KEY_Y : Nat
  KEY_PLUS : Nat
  DISPLAY_FULLSCREEN : Nat
  VERSION_MAJOR : Int
  VERSION_MINOR : Int
  VERSION_PATCH : Int
  COMPILE_OPTIONS : String

/-- One concrete choice of the constants, used to evaluate the model on
examples: `GS_OK` is 0, the error codes are distinct negative numbers and each
key is one bit. -/
def sampleConstants : Constants where
  GS_OK := 0
  GS_OUT_OF_MEMORY := -2
  GS_ERROR := -9
  GS_INVALID := -3
  GS_UNSUPPORTED_VERSION := -7
  GS_NOT_SUPPORTED_4K := -6
  GS_NOT_SUPPORTED_MODE := -8
  KEY_A := 1
  KEY_B := 2
  KEY_X := 4
  KEY_Y := 8
  KEY_PLUS := 1024
  DISPLAY_FULLSCREEN := 1
  VERSION_MAJOR := 2
  VERSION_MINOR := 4
  VERSION_PATCH := 6
  COMPILE_OPTIONS := ""

/-- Modelled from the spec: the codec preference of `SessionConfig`
(`Auto|H264|HEVC`); the C enum is declared in `configuration.h`, which is not
among the sources.  `main.c` names `CODEC_H264` and `CODEC_HEVC`. -/
inductive codecs where
  | CODEC_UNSPECIFIED
  | CODEC_H264
  | CODEC_HEVC
  deriving DecidableEq, Repr

/-- The fields of `STREAM_CONFIGURATION` that `main.c` reads or writes. -/
structure STREAM_CONFIGURATION where
  width : Int
  height : Int
  fps : Int
  bitrate : Int
  supportsHevc : Bool
  deriving DecidableEq, Repr

/-- The fields of `CONFIGURATION` that `main.c` reads or writes.  A `char*`
that may be `NULL` is an `Option String`. -/
structure CONFIGURATION where
  stream : STREAM_CONFIGURATION
  debug_level : Int
  app : String
  address : Option String
  platform : String
  audio_device : Option String
  sops : Bool
  localaudio : Bool
  fullscreen : Bool
  unsupported : Bool
  codec : codecs
  deriving DecidableEq, Repr

/-- The fields of `SERVER_DATA` that `main.c` reads. -/
structure SERVER_DATA where
  paired : Bool
  gpuType : String
  gsVersion : String
  serverInfoGfeVersion : String
  serverInfoAppVersion : String
  deriving DecidableEq, Repr

/-- One node of `APP_LIST`: the list itself is a Lean list of nodes. -/
structure APP_LIST where
  name : String
  id : Int
  deriving DecidableEq, Repr

/-- Every call that leaves `main.c`, with the arguments that matter. -/
inductive Event where
  | stdout (s : String)
  | stderr (s : String)
  | perror (s : String)
  | gfxInitDefault
  | consoleInit
  | socketInitializeDefault
  | nxlinkStdio
  | SSL_library_init
  | OpenSSL_add_all_algorithms
  | ERR_load_crypto_strings
  | csrngGetRandomBytes
  | RAND_seed
  | config_parse (path : String)
  | malloc
  | gs_discover_server
  | access (path : String)
  | gs_init (address : Option String) (keydir : String) (debug_level : Int) (unsupported : Bool)
  | appletMainLoop
  | hidScanInput
  | hidKeysDown
  | gs_applist
  | gs_start_app (stream : STREAM_CONFIGURATION) (appId : Int) (sops : Bool)
      (localaudio : Bool) (gamepad_mask : Int)
  | gs_pair (pin : String)
  | gs_unpair
  | random
  | platform_check (name : String)
  | platform_name (system : Int)
  | platform_supports_hevc (system : Int)
  | platform_start (system : Int)
  | platform_get_video (system : Int)
  | platform_get_audio (system : Int) (audio_device : Option String)
  | LiStartConnection (stream : STREAM_CONFIGURATION) (drFlags : Nat)
      (audio_device : Option String)
  | LiStopConnection
  | platform_stop (system : Int)
  | gfxFlushBuffers
  | gfxSwapBuffers
  | gfxWaitForVsync
  | gfxExit
  | exit (status : Int)
  deriving DecidableEq, Repr

/-- The calls into the Session Client (`gs_*`), the platform layer
(`platform_*`) and the connection transport (`Li*`). -/
def Event.isClientCall : Event → Bool
  | .gs_discover_server => true
  | .gs_init _ _ _ _ => true
  | .gs_applist => true
  | .gs_start_app _ _ _ _ _ => true
  | .gs_pair _ => true
  | .gs_unpair => true
  | .platform_check _ => true
  | .platform_name _ => true
  | .platform_supports_hevc _ => true
  | .platform_start _ => true
  | .platform_get_video _ => true
  | .platform_get_audio _ _ => true
  | .LiStartConnection _ _ _ => true
  | .LiStopConnection => true
  | .platform_stop _ => true
  | _ => false

/-- The client calls recorded in a trace, in order. -/
def clientCalls (tr : List Event) : List Event := tr.filter Event.isClientCall

/-- What was written to the error channel, in order. -/
def stderrOutput : List Event → List String
  | [] => []
  | .stderr s :: tr => s :: stderrOutput tr
  | _ :: tr => stderrOutput tr

/-- What the library calls of one iteration of the dispatch loop return. -/
structure Frame where
  /-- Value of `hidKeysDown(CONTROLLER_P1_AUTO)`. -/
  kDown : Nat
  /-- Return code of `gs_applist`. -/
  applist_ret : Int
  /-- The list `gs_applist` stores through its second argument. -/
  applist : List APP_LIST
  /-- Value of `platform_check(config.platform)`. -/
  platform : Int
  /-- Value of `platform_name(system)`. -/
  platform_name : String
  /-- Value of `platform_supports_hevc(system)`. -/
  supports_hevc : Bool
  /-- Content of the local `gamepad_mask` of `stream`, declared with no
  initialiser, when the function is entered. -/
  gamepad_mask : Int
  /-- Return code of `gs_start_app`. -/
  start_app_ret : Int
  /-- The global `gs_error`. -/
  gs_error : String
  /-- Values of the four calls of `random()`, by position in the argument
  list of `sprintf`. -/
  random1 : Int
  random2 : Int
  random3 : Int
  random4 : Int
  /-- Result of the pairing RPC behind `gs_pair`. -/
  pair_ret : Int
  /-- Result of the unpairing RPC behind `gs_unpair`. -/
  unpair_ret : Int

/-- State that lives across iterations of the loop. -/
structure State where
  server : SERVER_DATA
  config : CONFIGURATION
  connection_debug : Bool
  deriving DecidableEq, Repr

/-! ## Helpers for C semantics -/

/-- Value of an integer converted to a 32-bit `int`. -/
def to_int (x : Int) : Int := (x + 2147483648) % 4294967296 - 2147483648

/-- Comparison of two strings character by character, as `strcmp` does: zero
when both end together, otherwise the sign of the first difference. -/
def strcmp_chars : List Char → List Char → Int
  | [], [] => 0
  | [], _ :: _ => -1
  | _ :: _, [] => 1
  | a :: as, b :: bs =>
    if a = b then strcmp_chars as bs else if a.toNat < b.toNat then -1 else 1

/-- The C function `strcmp`. -/
def strcmp (a b : String) : Int := strcmp_chars a.data b.data

/-- The `printf` conversion `%d`. -/
def fmt_d (n : Int) : String := toString n

/-- The `printf` conversion `%s` of a `char*`. -/
def fmt_s (s : Option String) : String := s.getD "(null)"

/-! ## `applist`, `get_app_id`, `stream`, `pair_check` -/

/-- The `for` loop of `applist`: one line `"%d. %s\n"` per node, numbered
from `i`. -/
def applist_for : Int → List APP_LIST → List Event
  | _, [] => []
  | i, a :: list => .stdout (fmt_d i ++ ". " ++ a.name ++ "\n") :: applist_for (i + 1) list

/-- The function `applist`. -/
def applist (C : Constants) (f : Frame) : List Event :=
  if f.applist_ret ≠ C.GS_OK then
    [.gs_applist, .stderr "Can't get app list\n"]
  else
    .gs_applist :: applist_for 1 f.applist

/-- The `while` loop of `get_app_id`: the id of the first node whose name
compares equal, `-1` when the list is exhausted. -/
def get_app_id_while : List APP_LIST → String → Int
  | [], _ => -1
  | a :: list, name => if strcmp a.name name = 0 then a.id else get_app_id_while list name

/-- The function `get_app_id`: the trace and the returned value. -/
def get_app_id (C : Constants) (f : Frame) (name : String) : List Event × Int :=
  if f.applist_ret ≠ C.GS_OK then
    ([.gs_applist, .stderr "Can't get app list\n"], -1)
  else
    ([.gs_applist], get_app_id_while f.applist name)

/-- The `for` loop of `stream` that builds the gamepad mask:
`for (i = 0; i < gamepads && i < 4; i++) gamepad_mask = (gamepad_mask << 1) + 1;`
run from counter `i` and mask `gamepad_mask`.  The last argument bounds the
number of iterations; the loop body runs at most four times, so five
rounds always reach the exit test. -/
def gamepad_mask_for (gamepads : Int) : Int → Int → Nat → Int
  | _, gamepad_mask, 0 => gamepad_mask
  | i, gamepad_mask, fuel + 1 =>
    if i < gamepads ∧ i < 4 then
      gamepad_mask_for gamepads (i + 1) (to_int (gamepad_mask * 2 + 1)) fuel
    else gamepad_mask

/-- The mask that `stream` hands to `gs_start_app`: `gamepads` is the local
`int gamepads = 0;` and the mask starts from the content of the uninitialised
local `gamepad_mask`. -/
def stream_gamepad_mask (f : Frame) : Int :=
  let gamepads : Int := 0
  gamepad_mask_for gamepads 0 f.gamepad_mask 5

/-- The diagnostic `stream` writes when `gs_start_app` returned `ret < 0`. -/
def start_app_diagnostic (C : Constants) (f : Frame) (config : CONFIGURATION) (ret : Int) :
    String :=
  if ret = C.GS_NOT_SUPPORTED_4K then
    "Server doesn't support 4K\n"
  else if ret = C.GS_NOT_SUPPORTED_MODE then
    "Server doesn't support " ++ fmt_d config.stream.width ++ "x" ++ fmt_d config.stream.height
      ++ " (" ++ fmt_d config.stream.fps ++ " fps) or try --unsupported option\n"
  else if ret = C.GS_ERROR then
    "Gamestream error: " ++ f.gs_error ++ "\n"
  else
    "Errorcode starting app: " ++ fmt_d ret ++ "\n"

/-- Result of a call of `stream`: its trace, the status passed to `exit` when
the process was terminated (`none` when the function returned), and the
global `connection_debug`. -/
structure StreamResult where
  events : List Event
  exited : Option Int
  connection_debug : Bool
  deriving DecidableEq, Repr

/-- The function `stream`. -/
def stream (C : Constants) (f : Frame) (config : CONFIGURATION) (system : Int)
    (connection_debug : Bool) : StreamResult :=
  let r := get_app_id C f config.app
  let appId := r.2
  if appId < 0 then
    { events := r.1 ++ [.stderr ("Can't find app " ++ config.app ++ "\n"), .exit (-1)]
      exited := some (-1)
      connection_debug := connection_debug }
  else
    let gamepad_mask := stream_gamepad_mask f
    let ret := f.start_app_ret
    let ev := r.1 ++ [.gs_start_app config.stream appId config.sops config.localaudio gamepad_mask]
    if ret < 0 then
      { events := ev ++ [.stderr (start_app_diagnostic C f config ret), .exit (-1)]
        exited := some (-1)
        connection_debug := connection_debug }
    else
      let drFlags : Nat := if config.fullscreen then 0 ||| C.DISPLAY_FULLSCREEN else 0
      let dbg : List Event :=
        if config.debug_level > 0 then
          [.stdout ("Stream " ++ fmt_d config.stream.width ++ " x " ++ fmt_d config.stream.height
            ++ ", " ++ fmt_d config.stream.fps ++ " fps, " ++ fmt_d config.stream.bitrate
            ++ " kbps\n")]
        else []
      { events := ev ++ dbg ++
          [.platform_start system, .platform_get_video system,
           .platform_get_audio system config.audio_device,
           .LiStartConnection config.stream drFlags config.audio_device,
           .stdout "Would loop here...",
           .LiStopConnection, .platform_stop system]
        exited := none
        connection_debug := if config.debug_level > 0 then true else connection_debug }

/-- The function `pair_check`: the trace and the returned value.  The server
handle is only read. -/
def pair_check (server : SERVER_DATA) : List Event × Int :=
  if !server.paired then
    ([.stderr "You must pair with the PC first\n"], 0)
  else
    ([], 1)

/-! ## The Session Client operations that change the handle -/

/-- Modelled from the spec: `gs_pair` belongs to the Session Client library,
whose code is not among the sources.  The spec (4.4) says that `pair()`
"invokes the Session Client pairing RPC with that PIN, and sets `paired=true`
only on `Ok`".  The result `rpc` of the RPC is returned to the caller. -/
def gs_pair (C : Constants) (server : SERVER_DATA) (_pin : String) (rpc : Int) :
    SERVER_DATA × Int :=
  if rpc = C.GS_OK then ({ server with paired := true }, rpc) else (server, rpc)

/-- Modelled from the spec: `gs_unpair` belongs to the Session Client library,
whose code is not among the sources.  The spec (4.4) says that `unpair()`
"invokes the corresponding RPC and sets `paired=false` only on `Ok`; a failed
unpair leaves state unchanged".  The result `rpc` of the RPC is returned to
the caller. -/
def gs_unpair (C : Constants) (server : SERVER_DATA) (rpc : Int) : SERVER_DATA × Int :=
  if rpc = C.GS_OK then ({ server with paired := false }, rpc) else (server, rpc)

/-! ## The dispatch loop of `main` -/

/-- The PIN of the `KEY_X` branch:
`sprintf(pin, "%d%d%d%d", (int)random() % 10, ...)`.  The arguments are the
values of the four calls of `random()` by argument position; `%` is the
truncating remainder of C. -/
def pin (r1 r2 r3 r4 : Int) : String :=
  fmt_d (Int.tmod (to_int r1) 10) ++ fmt_d (Int.tmod (to_int r2) 10)
    ++ fmt_d (Int.tmod (to_int r3) 10) ++ fmt_d (Int.tmod (to_int r4) 10)

/-- The value stored in `config.stream.supportsHevc` by the `KEY_B` branch:
`config.codec != CODEC_H264 && (config.codec == CODEC_HEVC || platform_supports_hevc(system))`. -/
def supportsHevc (codec : codecs) (platform_supports_hevc : Bool) : Bool :=
  codec != codecs.CODEC_H264 && (codec == codecs.CODEC_HEVC || platform_supports_hevc)

/-- How one iteration of the loop ends: the loop goes on to its next test,
the loop is left with `break`, or the process is terminated by `exit`. -/
inductive Outcome where
  | continues
  | leaves
  | exits (status : Int)
  deriving DecidableEq, Repr

/-- Result of one iteration of the loop. -/
structure Step where
  events : List Event
  state : State
  outcome : Outcome
  deriving DecidableEq, Repr

/-- The three calls that close an iteration. -/
def frame_end : List Event := [.gfxFlushBuffers, .gfxSwapBuffers, .gfxWaitForVsync]

/-- The `KEY_A` branch. -/
def key_a (C : Constants) (f : Frame) (s : State) : Step :=
  let pc := pair_check s.server
  if pc.2 ≠ 0 then
    { events := pc.1 ++ applist C f ++ frame_end, state := s, outcome := .continues }
  else
    { events := pc.1 ++ frame_end, state := s, outcome := .continues }

/-- The `KEY_B` branch. -/
def key_b (C : Constants) (f : Frame) (s : State) : Step :=
  let pc := pair_check s.server
  if pc.2 ≠ 0 then
    let system := f.platform
    let ev := pc.1 ++ [.platform_check s.config.platform] ++
      (if s.config.debug_level > 0 then
        [.platform_name system,
         .stdout ("Beginning streaming on platform " ++ f.platform_name ++ "\n")]
       else [])
    if system = 0 then
      { events := ev ++ [.stderr ("Platform '" ++ s.config.platform ++ "' not found\n")]
        state := s
        outcome := .leaves }
    else
      let hevcCall : List Event :=
        if s.config.codec != codecs.CODEC_H264 && !(s.config.codec == codecs.CODEC_HEVC) then
          [.platform_supports_hevc system]
        else []
      let config : CONFIGURATION :=
        { s.config with
          stream := { s.config.stream with
            supportsHevc := supportsHevc s.config.codec f.supports_hevc } }
      let r := stream C f config system s.connection_debug
      let s1 : State := { s with config := config, connection_debug := r.connection_debug }
      match r.exited with
      | some status => { events := ev ++ hevcCall ++ r.events, state := s1, outcome := .exits status }
      | none =>
        { events := ev ++ hevcCall ++ r.events ++ frame_end, state := s1, outcome := .continues }
  else
    { events := pc.1 ++ frame_end, state := s, outcome := .continues }

/-- The `KEY_X` branch. -/
def key_x (C : Constants) (f : Frame) (s : State) : Step :=
  let pin := pin f.random1 f.random2 f.random3 f.random4
  let ev : List Event :=
    [.random, .random, .random, .random,
     .stdout ("Please enter the following PIN on the target PC: " ++ pin ++ "\n"),
     .gs_pair pin]
  let r := gs_pair C s.server pin f.pair_ret
  if r.2 ≠ C.GS_OK then
    { events := ev ++ [.stderr ("Failed to pair to server: " ++ f.gs_error ++ "\n")] ++ frame_end
      state := { s with server := r.1 }
      outcome := .continues }
  else
    { events := ev ++ [.stdout "Succesfully paired\n"] ++ frame_end
      state := { s with server := r.1 }
      outcome := .continues }

/-- The `KEY_Y` branch. -/
def key_y (C : Constants) (f : Frame) (s : State) : Step :=
  let r := gs_unpair C s.server f.unpair_ret
  if r.2 ≠ C.GS_OK then
    { events := [.gs_unpair, .stderr ("Failed to unpair to server: " ++ f.gs_error ++ "\n")]
        ++ frame_end
      state := { s with server := r.1 }
      outcome := .continues }
  else
    { events := [.gs_unpair, .stdout "Succesfully unpaired\n"] ++ frame_end
      state := { s with server := r.1 }
      outcome := .continues }

/-- The `if`/`else if` chain on `kDown` (lines 282 to 325 of `main.c`),
without the two input calls that open the iteration. -/
def dispatch (C : Constants) (f : Frame) (s : State) : Step :=
  if f.kDown &&& C.KEY_A ≠ 0 then key_a C f s
  else if f.kDown &&& C.KEY_B ≠ 0 then key_b C f s
  else if f.kDown &&& C.KEY_X ≠ 0 then key_x C f s
  else if f.kDown &&& C.KEY_Y ≠ 0 then key_y C f s
  else if f.kDown &&& C.KEY_PLUS ≠ 0 then { events := [], state := s, outcome := .leaves }
  else { events := frame_end, state := s, outcome := .continues }

/-- One iteration of the `while` loop of `main`. -/
def loop_body (C : Constants) (f : Frame) (s : State) : Step :=
  let r := dispatch C f s
  { r with events := [Event.hidScanInput, Event.hidKeysDown] ++ r.events }

/-- How a run of the loop ends. -/
inductive LoopEnd where
  /-- The call `appletMainLoop()` returned false. -/
  | applet
  /-- The loop was left by a `break`. -/
  | left
  /-- The process was terminated by `exit(status)`. -/
  | exited (status : Int)
  deriving DecidableEq, Repr

/-- Result of a run of the loop. -/
structure LoopResult where
  events : List Event
  state : State
  ending : LoopEnd
  deriving DecidableEq, Repr

/-- The `while (appletMainLoop())` loop: `appletMainLoop()` returns true once
for each frame of the list and false after the last one. -/
def main_loop (C : Constants) : List Frame → State → LoopResult
  | [], s => { events := [.appletMainLoop], state := s, ending := .applet }
  | f :: frames, s =>
    let r := loop_body C f s
    match r.outcome with
    | .continues =>
      let rest := main_loop C frames r.state
      { rest with events := Event.appletMainLoop :: r.events ++ rest.events }
    | .leaves => { events := Event.appletMainLoop :: r.events, state := r.state, ending := .left }
    | .exits status =>
      { events := Event.appletMainLoop :: r.events, state := r.state, ending := .exited status }

/-! ## The start-up sequence of `main` -/

/-- What the library calls of the start-up sequence return. -/
structure Startup where
  /-- Content of the local `config`, declared with no initialiser. -/
  config0 : CONFIGURATION
  /-- Effect of `config_parse(path, &config)` on the configuration. -/
  config_parse : String → CONFIGURATION → CONFIGURATION
  /-- Whether `malloc(MAX_ADDRESS_SIZE)` returned a buffer. -/
  malloc_ok : Bool
  /-- What `gs_discover_server` wrote into the address buffer (the empty
  string when it wrote nothing). -/
  discovered : String
  /-- Whether `access(path, R_OK) != -1`. -/
  access : String → Bool
  /-- Return code of `gs_init`. -/
  init_ret : Int
  /-- Content of the local `server` after the call of `gs_init`. -/
  server : SERVER_DATA
  /-- The global `gs_error`. -/
  gs_error : String
  /-- The global `connection_debug` before the loop. -/
  connection_debug : Bool

/-- The calls of `main` before the configuration is read. -/
def bootstrap : List Event :=
  [.gfxInitDefault, .consoleInit, .socketInitializeDefault, .nxlinkStdio,
   .SSL_library_init, .OpenSSL_add_all_algorithms, .ERR_load_crypto_strings,
   .malloc, .csrngGetRandomBytes, .RAND_seed]

/-- The configuration after `config_parse` of the global file and
`config.debug_level = 2;`. -/
def global_config (E : Startup) : CONFIGURATION :=
  { E.config_parse (MOONLIGHT_DATA_DIR ++ "moonlight.ini") E.config0 with debug_level := 2 }

/-- The start of the trace of `main`, up to the version banner. -/
def preamble (C : Constants) (E : Startup) : List Event :=
  bootstrap ++ [.config_parse (MOONLIGHT_DATA_DIR ++ "moonlight.ini")] ++
    (if (global_config E).debug_level > 0 then
      [.stdout ("Moonlight Embedded " ++ fmt_d C.VERSION_MAJOR ++ "." ++ fmt_d C.VERSION_MINOR
        ++ "." ++ fmt_d C.VERSION_PATCH ++ " (" ++ C.COMPILE_OPTIONS ++ ")\n")]
     else [])

/-- The block `if (config.address == NULL) { ... }` of `main` (lines 224 to
237): the trace, and the configuration when `main` goes on, `none` when it
returned. -/
def discover (E : Startup) (config : CONFIGURATION) : List Event × Option CONFIGURATION :=
  match config.address with
  | some _ => ([], some config)
  | none =>
    if !E.malloc_ok then
      ([.malloc, .perror "Not enough memory"], none)
    else
      let ev : List Event :=
        [.malloc, .stdout "Searching for server...\n", .gs_discover_server]
      if E.discovered = "" then
        (ev ++ [.stderr "Autodiscovery failed. Specify an IP address next time.\n"], none)
      else
        (ev, some { config with address := some E.discovered })

/-- The size of the local buffer `char host_config_file[128]` of `main`. -/
def HOST_CONFIG_FILE_SIZE : Nat := 128

/-- The text that
`sprintf(host_config_file, MOONLIGHT_DATA_DIR "hosts/%s.ini", config.address)`
formats. -/
def host_config_path (address : Option String) : String :=
  MOONLIGHT_DATA_DIR ++ "hosts/" ++ fmt_s address ++ ".ini"

/-- The content of `host_config_file` after the `sprintf` of line 241.  The
call has no bound: when the formatted text and its terminating zero byte do
not fit the 128 bytes of the buffer, `sprintf` writes past its end and the
behaviour of the program is undefined; the result is then `none`. -/
def host_config_file (address : Option String) : Option String :=
  if (host_config_path address).utf8ByteSize + 1 ≤ HOST_CONFIG_FILE_SIZE then
    some (host_config_path address)
  else none

/-- The configuration after the host file `path` was parsed, when it is
readable. -/
def host_config (E : Startup) (config : CONFIGURATION) (path : String) : CONFIGURATION :=
  if E.access path then E.config_parse path config else config

/-- The trace of lines 243 to 244: `access`, and `config_parse` when the
file is readable. -/
def host_config_events (E : Startup) (path : String) : List Event :=
  if E.access path then [.access path, .config_parse path] else [.access path]

/-- The diagnostic of `main` for the return code of `gs_init`, if any. -/
def init_diagnostic (C : Constants) (E : Startup) (config : CONFIGURATION) : List Event :=
  let ret := E.init_ret
  if ret = C.GS_OUT_OF_MEMORY then [.stderr "Not enough memory\n"]
  else if ret = C.GS_ERROR then [.stderr ("Gamestream error: " ++ E.gs_error ++ "\n")]
  else if ret = C.GS_INVALID then
    [.stderr ("Invalid data received from server: " ++ E.gs_error ++ "\n")]
  else if ret = C.GS_UNSUPPORTED_VERSION then
    [.stderr ("Unsupported version: " ++ E.gs_error ++ "\n")]
  else if ret ≠ C.GS_OK then
    [.stderr ("Can't connect to server " ++ fmt_s config.address ++ ", error: \n")]
  else []

/-- The trace of lines 246 to 272: connection to the host, diagnostic, server
description and the menu. -/
def connect_events (C : Constants) (E : Startup) (config : CONFIGURATION) : List Event :=
  [.stdout ("Connect to " ++ fmt_s config.address ++ "...\n"),
   .gs_init config.address (MOONLIGHT_DATA_DIR ++ "key") config.debug_level config.unsupported]
  ++ init_diagnostic C E config ++
  (if config.debug_level > 0 then
    [.stdout ("NVIDIA " ++ E.server.gpuType ++ ", GFE " ++ E.server.serverInfoGfeVersion ++ " ("
      ++ E.server.gsVersion ++ ", " ++ E.server.serverInfoAppVersion ++ ")\n")]
   else []) ++
  [.stdout "\n", .stdout "A: list\n", .stdout "B: stream\n", .stdout "X: pair\n",
   .stdout "Y: unpair\n", .stdout "+: quit\n", .stdout "\n"]

/-- How the part of `main` before the loop ends. -/
inductive StartupEnd where
  /-- The function `main` returned 0 before the loop. -/
  | returned
  /-- The `sprintf` of line 241 wrote past the end of `host_config_file`:
  from here the behaviour is undefined and the trace stops. -/
  | overflow
  /-- The loop is entered in the given state. -/
  | loop (s : State)
  deriving DecidableEq, Repr

/-- Result of a run of `main`: the trace and the status with which the
process ended, `none` when the run reached undefined behaviour. -/
structure Run where
  events : List Event
  status : Option Int
  deriving DecidableEq, Repr

/-- The part of `main` before the loop (lines 197 to 272): the trace and how
this part ends. -/
def startup (C : Constants) (E : Startup) : List Event × StartupEnd :=
  let d := discover E (global_config E)
  match d.2 with
  | none => (preamble C E ++ d.1, .returned)
  | some config1 =>
    match host_config_file config1.address with
    | none => (preamble C E ++ d.1, .overflow)
    | some path =>
      let config := host_config E config1 path
      (preamble C E ++ d.1 ++ host_config_events E path ++ connect_events C E config,
       .loop { server := E.server, config := config, connection_debug := E.connection_debug })

/-- The function `main`, run against the start-up responses `E` and the
frames of the dispatch loop. -/
def main (C : Constants) (E : Startup) (frames : List Frame) : Run :=
  let st := startup C E
  match st.2 with
  | .returned => { events := st.1, status := some 0 }
  | .overflow => { events := st.1, status := none }
  | .loop s =>
    let l := main_loop C frames s
    match l.ending with
    | .exited status => { events := st.1 ++ l.events, status := some status }
    | _ => { events := st.1 ++ l.events ++ [.gfxExit], status := some 0 }

/-! ## Vocabulary of the specification and sample data -/

/-- The commands of the specification's dispatcher. -/
inductive Command where
  | list
  | stream
  | pair
  | unpair
  | quit
  | none
  deriving DecidableEq, Repr

/-- The command a frame stands for: the branch that the `if`/`else if` chain
of `main` selects for its `kDown`. -/
def command (C : Constants) (f : Frame) : Command :=
  if f.kDown &&& C.KEY_A ≠ 0 then .list
  else if f.kDown &&& C.KEY_B ≠ 0 then .stream
  else if f.kDown &&& C.KEY_X ≠ 0 then .pair
  else if f.kDown &&& C.KEY_Y ≠ 0 then .unpair
  else if f.kDown &&& C.KEY_PLUS ≠ 0 then .quit
  else .none

/-- A frame with no key pressed in which every call succeeds: the catalog is
`[("Steam",1),("Chrome",2)]`. -/
def sampleFrame : Frame where
  kDown := 0
  applist_ret := 0
  applist := [⟨"Steam", 1⟩, ⟨"Chrome", 2⟩]
  platform := 1
  platform_name := "switch"
  supports_hevc := false
  gamepad_mask := 0
  start_app_ret := 0
  gs_error := "error"
  random1 := 1804289383
  random2 := 846930886
  random3 := 1681692777
  random4 := 1714636915
  pair_ret := 0
  unpair_ret := 0

/-- A configuration asking for the app `Chrome` at 3840x2160. -/
def sampleConfig : CONFIGURATION where
  stream := { width := 3840, height := 2160, fps := 60, bitrate := 20000, supportsHevc := false }
  debug_level := 2
  app := "Chrome"
  address := some "192.168.1.50"
  platform := "switch"
  audio_device := none
  sops := true
  localaudio := false
  fullscreen := true
  unsupported := false
  codec := .CODEC_UNSPECIFIED

/-- A dispatcher state with the given value of the paired flag. -/
def sampleState (paired : Bool) : State where
  server :=
    { paired := paired, gpuType := "GTX", gsVersion := "7", serverInfoGfeVersion := "3.1",
      serverInfoAppVersion := "7.1" }
  config := sampleConfig
  connection_debug := false

/-- Start-up responses: the global file sets the address `192.168.1.50`, no
host file is readable, and `gs_init` returns the given code. -/
def sampleStartup (init_ret : Int) : Startup where
  config0 := sampleConfig
  config_parse := fun _ config => { config with address := some "192.168.1.50" }
  malloc_ok := true
  discovered := ""
  access := fun _ => false
  init_ret := init_ret
  server :=
    { paired := false, gpuType := "", gsVersion := "", serverInfoGfeVersion := "",
      serverInfoAppVersion := "" }
  gs_error := "timeout"
  connection_debug := false

/-- Start-up responses: the global file sets no address, the address buffer
is allocated or not, and discovery writes the given string. -/
def discoveryStartup (malloc_ok : Bool) (discovered : String) : Startup where
  config0 := { sampleConfig with address := none }
  config_parse := fun _ config => config
  malloc_ok := malloc_ok
  discovered := discovered
  access := fun _ => false
  init_ret := 0
  server := (sampleState false).server
  gs_error := ""
  connection_debug := false

/-- Start-up responses: the global file sets the address `10.0.0.1`, and the
readable host file `hosts/10.0.0.1.ini` sets the address `10.0.0.2`. -/
def overrideStartup : Startup where
  config0 := { sampleConfig with address := none }
  config_parse := fun path config =>
    if path = MOONLIGHT_DATA_DIR ++ "moonlight.ini" then { config with address := some "10.0.0.1" }
    else if path = MOONLIGHT_DATA_DIR ++ "hosts/10.0.0.1.ini" then
      { config with address := some "10.0.0.2" }
    else config
  malloc_ok := true
  discovered := ""
  access := fun path => path = MOONLIGHT_DATA_DIR ++ "hosts/10.0.0.1.ini"
  init_ret := 0
  server := (sampleState false).server
  gs_error := ""
  connection_debug := false

/-- The calls of `gs_start_app` recorded in a trace, in order. -/
def startAppCalls : List Event → List Event
  | [] => []
  | .gs_start_app st appId sops la mask :: tr => .gs_start_app st appId sops la mask :: startAppCalls tr
  | _ :: tr => startAppCalls tr

/-- The addresses handed to `gs_init` in a trace, in order. -/
def initAddresses : List Event → List (Option String)
  | [] => []
  | .gs_init address _ _ _ :: tr => address :: initAddresses tr
  | _ :: tr => initAddresses tr

/-- The number of calls of `gs_discover_server` in a trace. -/
def discoveries : List Event → Nat
  | [] => 0
  | .gs_discover_server :: tr => discoveries tr + 1
  | _ :: tr => discoveries tr

/-! # Theorems -/

/-! ## Helper lemmas -/

theorem dispatch_list (C : Constants) (f : Frame) (s : State) (h : command C f = .list) :
    dispatch C f s = key_a C f s := by
  unfold command at h
  unfold dispatch
  split_ifs at h ⊢
  rfl

theorem dispatch_stream (C : Constants) (f : Frame) (s : State) (h : command C f = .stream) :
    dispatch C f s = key_b C f s := by
  unfold command at h
  unfold dispatch
  split_ifs at h ⊢
  rfl

theorem dispatch_pair (C : Constants) (f : Frame) (s : State) (h : command C f = .pair) :
    dispatch C f s = key_x C f s := by
  unfold command at h
  unfold dispatch
  split_ifs at h ⊢
  rfl

theorem dispatch_unpair (C : Constants) (f : Frame) (s : State) (h : command C f = .unpair) :
    dispatch C f s = key_y C f s := by
  unfold command at h
  unfold dispatch
  split_ifs at h ⊢
  rfl

theorem dispatch_quit (C : Constants) (f : Frame) (s : State) (h : command C f = .quit) :
    dispatch C f s = { events := [], state := s, outcome := .leaves } := by
  unfold command at h
  unfold dispatch
  split_ifs at h ⊢
  rfl

theorem dispatch_none (C : Constants) (f : Frame) (s : State) (h : command C f = .none) :
    dispatch C f s = { events := frame_end, state := s, outcome := .continues } := by
  unfold command at h
  unfold dispatch
  split_ifs at h ⊢
  rfl

/-! ## C1 -/

/-- C1: in a state whose paired flag is false, an iteration whose command is
List or Stream makes no client call: `pair_check` returns 0, the trace of the
iteration is the two input calls, the precondition message on the error
channel and the three calls that close the frame, none of which is a call of
the Session Client, the platform layer or the connection; the state is
unchanged and the loop goes on. -/
theorem unpaired_list_stream_no_client_call (C : Constants) (f : Frame) (s : State)
    (hp : s.server.paired = false) (hc : command C f = .list ∨ command C f = .stream) :
    (pair_check s.server).2 = 0 ∧
    (loop_body C f s).events =
      [.hidScanInput, .hidKeysDown, .stderr "You must pair with the PC first\n",
       .gfxFlushBuffers, .gfxSwapBuffers, .gfxWaitForVsync] ∧
    clientCalls (loop_body C f s).events = [] ∧
    (loop_body C f s).state = s ∧
    (loop_body C f s).outcome = .continues := by
  have hpc : pair_check s.server = ([.stderr "You must pair with the PC first\n"], 0) := by
    simp [pair_check, hp]
  have hb : loop_body C f s =
      { events := [.hidScanInput, .hidKeysDown, .stderr "You must pair with the PC first\n",
          .gfxFlushBuffers, .gfxSwapBuffers, .gfxWaitForVsync],
        state := s, outcome := .continues } := by
    rcases hc with hc | hc
    · simp [loop_body, dispatch_list C f s hc, key_a, hpc, frame_end]
    · simp [loop_body, dispatch_stream C f s hc, key_b, hpc, frame_end]
  rw [hb, hpc]
  exact ⟨rfl, rfl, rfl, rfl, rfl⟩

/-- Witness of C1: the List key in an unpaired state. -/
theorem unpaired_list_stream_no_client_call_witness :
    clientCalls (loop_body sampleConstants { sampleFrame with kDown := 1 }
      (sampleState false)).events = [] :=
  (unpaired_list_stream_no_client_call sampleConstants { sampleFrame with kDown := 1 }
    (sampleState false) rfl (Or.inl (by decide))).2.2.1

/-! ## C6 (Stream branch) -/

theorem pair_check_paired (server : SERVER_DATA) (h : server.paired = true) :
    pair_check server = ([], 1) := by
  simp [pair_check, h]

theorem pair_check_unpaired (server : SERVER_DATA) (h : server.paired = false) :
    pair_check server = ([.stderr "You must pair with the PC first\n"], 0) := by
  simp [pair_check, h]

theorem key_b_config (C : Constants) (f : Frame) (s : State) (hp : s.server.paired = true)
    (hs : f.platform ≠ 0) :
    (key_b C f s).state.config.stream.supportsHevc =
      supportsHevc s.config.codec f.supports_hevc := by
  unfold key_b
  simp only [pair_check_paired s.server hp]
  simp only [ne_eq, one_ne_zero, not_false_eq_true, if_true, hs, if_false]
  split <;> rfl

/-! ## C8 -/

theorem to_int_of_range (r : Int) (h0 : 0 ≤ r) (h1 : r < 2147483648) : to_int r = r := by
  unfold to_int
  omega

theorem fmt_d_digit (k : Nat) (hk : k < 10) :
    fmt_d (k : Int) = String.singleton (Nat.digitChar k) := by
  interval_cases k <;> rfl

theorem digitChar_isDigit (k : Nat) (hk : k < 10) : (Nat.digitChar k).isDigit = true := by
  interval_cases k <;> rfl

theorem pin_digit (r : Int) (h0 : 0 ≤ r) (h1 : r < 2147483648) :
    fmt_d (Int.tmod (to_int r) 10) = String.singleton (Nat.digitChar (r % 10).toNat) := by
  rw [to_int_of_range r h0 h1]
  have h : Int.tmod r 10 = (((r % 10).toNat : Nat) : Int) := by
    rw [Int.tmod_eq_emod h0 (by norm_num)]
    omega
  rw [h]
  exact fmt_d_digit _ (by omega)

theorem pin_eq (r1 r2 r3 r4 : Int)
    (h1 : 0 ≤ r1 ∧ r1 < 2147483648) (h2 : 0 ≤ r2 ∧ r2 < 2147483648)
    (h3 : 0 ≤ r3 ∧ r3 < 2147483648) (h4 : 0 ≤ r4 ∧ r4 < 2147483648) :
    pin r1 r2 r3 r4 =
      String.mk [Nat.digitChar (r1 % 10).toNat, Nat.digitChar (r2 % 10).toNat,
        Nat.digitChar (r3 % 10).toNat, Nat.digitChar (r4 % 10).toNat] := by
  unfold pin
  rw [pin_digit r1 h1.1 h1.2, pin_digit r2 h2.1 h2.2, pin_digit r3 h3.1 h3.2,
    pin_digit r4 h4.1 h4.2]
  rfl

theorem key_x_clientCalls (C : Constants) (f : Frame) (s : State) :
    clientCalls (key_x C f s).events =
      [.gs_pair (pin f.random1 f.random2 f.random3 f.random4)] := by
  unfold key_x
  dsimp only
  split_ifs <;> rfl

theorem loop_body_clientCalls (C : Constants) (f : Frame) (s : State) :
    clientCalls (loop_body C f s).events = clientCalls (dispatch C f s).events := by
  rfl

/-- C8: for four values of `random()` in its range `0 .. 2^31-1`, the PIN of
the Pair branch has exactly four characters, the i-th being the decimal digit
of the i-th value modulo 10 (leading zeros kept); the only client call of the
iteration is `gs_pair` with that same string; and every string from "0000" to
"9999" is the PIN of some four values in range. -/
theorem pin_four_digits (C : Constants) (f : Frame) (s : State)
    (hc : command C f = .pair)
    (h1 : 0 ≤ f.random1 ∧ f.random1 < 2147483648)
    (h2 : 0 ≤ f.random2 ∧ f.random2 < 2147483648)
    (h3 : 0 ≤ f.random3 ∧ f.random3 < 2147483648)
    (h4 : 0 ≤ f.random4 ∧ f.random4 < 2147483648) :
    pin f.random1 f.random2 f.random3 f.random4 =
      String.mk [Nat.digitChar (f.random1 % 10).toNat, Nat.digitChar (f.random2 % 10).toNat,
        Nat.digitChar (f.random3 % 10).toNat, Nat.digitChar (f.random4 % 10).toNat] ∧
    (pin f.random1 f.random2 f.random3 f.random4).length = 4 ∧
    (∀ c ∈ (pin f.random1 f.random2 f.random3 f.random4).data, c.isDigit = true) ∧
    clientCalls (loop_body C f s).events =
      [.gs_pair (pin f.random1 f.random2 f.random3 f.random4)] ∧
    (∀ n : Nat, n < 10000 → ∃ r1 r2 r3 r4 : Int,
      (0 ≤ r1 ∧ r1 < 2147483648) ∧ (0 ≤ r2 ∧ r2 < 2147483648) ∧
      (0 ≤ r3 ∧ r3 < 2147483648) ∧ (0 ≤ r4 ∧ r4 < 2147483648) ∧
      pin r1 r2 r3 r4 =
        String.mk [Nat.digitChar (n / 1000), Nat.digitChar (n / 100 % 10),
          Nat.digitChar (n / 10 % 10), Nat.digitChar (n % 10)]) := by
  have hd : ∀ r : Int, 0 ≤ r → (r % 10).toNat < 10 := fun r _ => by omega
  refine ⟨pin_eq _ _ _ _ h1 h2 h3 h4, ?_, ?_, ?_, ?_⟩
  · rw [pin_eq _ _ _ _ h1 h2 h3 h4]
    rfl
  · rw [pin_eq _ _ _ _ h1 h2 h3 h4]
    intro c hcm
    simp only [List.mem_cons, List.mem_singleton, List.not_mem_nil, or_false] at hcm
    rcases hcm with h | h | h | h <;> rw [h] <;> apply digitChar_isDigit <;> omega
  · rw [loop_body_clientCalls, dispatch_pair C f s hc, key_x_clientCalls]
  · intro n hn
    refine ⟨(n / 1000 : Nat), (n / 100 % 10 : Nat), (n / 10 % 10 : Nat), (n % 10 : Nat),
      by omega, by omega, by omega, by omega, ?_⟩
    rw [pin_eq _ _ _ _ (by omega) (by omega) (by omega) (by omega)]
    have e1 : (((n / 1000 : Nat) : Int) % 10).toNat = n / 1000 := by omega
    have e2 : (((n / 100 % 10 : Nat) : Int) % 10).toNat = n / 100 % 10 := by omega
    have e3 : (((n / 10 % 10 : Nat) : Int) % 10).toNat = n / 10 % 10 := by omega
    have e4 : (((n % 10 : Nat) : Int) % 10).toNat = n % 10 := by omega
    rw [e1, e2, e3, e4]

/-- Witness of C8: the Pair key with four values of `random()`; the PIN is
"3675". -/
theorem pin_four_digits_witness :
    pin 1804289383 846930886 1681692777 1714636915 = "3675" ∧
    clientCalls (loop_body sampleConstants { sampleFrame with kDown := 4 }
      (sampleState true)).events = [.gs_pair "3675"] :=
  have h := pin_four_digits sampleConstants { sampleFrame with kDown := 4 } (sampleState true)
    (by decide) (by decide) (by decide) (by decide) (by decide)
  ⟨h.1, h.2.2.2.1⟩

/-- C6: in the Stream branch (paired handle, known platform) the value
stored in `config.stream.supportsHevc` is false when the codec is H264, true
when it is HEVC, and the value of `platform_supports_hevc` when it is the
automatic codec. -/
theorem supportsHevc_by_codec (C : Constants) (f : Frame) (s : State)
    (hc : command C f = .stream) (hp : s.server.paired = true) (hs : f.platform ≠ 0) :
    (s.config.codec = .CODEC_H264 →
      (loop_body C f s).state.config.stream.supportsHevc = false) ∧
    (s.config.codec = .CODEC_HEVC →
      (loop_body C f s).state.config.stream.supportsHevc = true) ∧
    (s.config.codec = .CODEC_UNSPECIFIED →
      (loop_body C f s).state.config.stream.supportsHevc = f.supports_hevc) := by
  have h : (loop_body C f s).state.config.stream.supportsHevc =
      supportsHevc s.config.codec f.supports_hevc := by
    show (dispatch C f s).state.config.stream.supportsHevc = _
    rw [dispatch_stream C f s hc]
    exact key_b_config C f s hp hs
  rw [h]
  refine ⟨fun e => ?_, fun e => ?_, fun e => ?_⟩ <;> rw [e] <;> cases f.supports_hevc <;> rfl

/-- Witness of C6: the Stream key on a paired handle with the automatic
codec and a platform without HEVC. -/
theorem supportsHevc_by_codec_witness :
    (loop_body sampleConstants { sampleFrame with kDown := 2 }
      (sampleState true)).state.config.stream.supportsHevc = false :=
  (supportsHevc_by_codec sampleConstants { sampleFrame with kDown := 2 } (sampleState true)
    (by decide) rfl (by decide)).2.2 rfl

/-! ## C4 -/

theorem key_a_state (C : Constants) (f : Frame) (s : State) : (key_a C f s).state = s := by
  unfold key_a
  dsimp only
  split_ifs <;> rfl

theorem key_b_server (C : Constants) (f : Frame) (s : State) :
    (key_b C f s).state.server = s.server := by
  unfold key_b
  dsimp only
  split_ifs <;> first | rfl | (split <;> rfl)

theorem key_x_paired (C : Constants) (f : Frame) (s : State) :
    (key_x C f s).state.server.paired =
      if f.pair_ret = C.GS_OK then true else s.server.paired := by
  unfold key_x gs_pair
  dsimp only
  split_ifs <;> simp_all

theorem key_y_paired (C : Constants) (f : Frame) (s : State) :
    (key_y C f s).state.server.paired =
      if f.unpair_ret = C.GS_OK then false else s.server.paired := by
  unfold key_y gs_unpair
  dsimp only
  split_ifs <;> simp_all

/-- The paired flag after one iteration, by command. -/
theorem loop_body_paired (C : Constants) (f : Frame) (s : State) :
    (loop_body C f s).state.server.paired =
      match command C f with
      | .pair => if f.pair_ret = C.GS_OK then true else s.server.paired
      | .unpair => if f.unpair_ret = C.GS_OK then false else s.server.paired
      | _ => s.server.paired := by
  show (dispatch C f s).state.server.paired = _
  cases hc : command C f
  · rw [dispatch_list C f s hc, key_a_state]
  · rw [dispatch_stream C f s hc, key_b_server]
  · rw [dispatch_pair C f s hc, key_x_paired]
  · rw [dispatch_unpair C f s hc, key_y_paired]
  · rw [dispatch_quit C f s hc]
  · rw [dispatch_none C f s hc]

/-- The flag stays false over any run of the loop without a successful
pairing. -/
theorem main_loop_unpaired (C : Constants) (frames : List Frame) :
    ∀ s : State, s.server.paired = false →
      (∀ g ∈ frames, ¬ (command C g = .pair ∧ g.pair_ret = C.GS_OK)) →
      (main_loop C frames s).state.server.paired = false := by
  induction frames with
  | nil => intro s hs _; exact hs
  | cons f frames ih =>
    intro s hs hno
    have hf : (loop_body C f s).state.server.paired = false := by
      rw [loop_body_paired]
      have h1 := hno f (List.mem_cons_self _ _)
      cases hc : command C f <;> simp_all
    have hrest : ∀ g ∈ frames, ¬ (command C g = .pair ∧ g.pair_ret = C.GS_OK) :=
      fun g hg => hno g (List.mem_cons_of_mem _ hg)
    unfold main_loop
    dsimp only
    split
    · exact ih _ hf hrest
    · exact hf
    · exact hf

/-- C4: after a Pair command the paired flag is true if the pairing RPC
returned `GS_OK` and keeps its value otherwise; after an Unpair command it is
false if the unpairing RPC returned `GS_OK` and keeps its value otherwise;
`pair_check` returns 1 exactly when the flag is true (it only reads the
handle).  Hence, from a state with the flag false, `pair_check` returns 0
after any run of the loop in which no pairing returned `GS_OK`, and it
returns 0 right after an unpairing that returned `GS_OK`. -/
theorem paired_flag_follows_rpc (C : Constants) (f : Frame) (s : State) :
    (command C f = .pair →
      (loop_body C f s).state.server.paired =
        if f.pair_ret = C.GS_OK then true else s.server.paired) ∧
    (command C f = .unpair →
      (loop_body C f s).state.server.paired =
        if f.unpair_ret = C.GS_OK then false else s.server.paired) ∧
    ((pair_check s.server).2 = 1 ↔ s.server.paired = true) ∧
    ((pair_check s.server).2 = 0 ↔ s.server.paired = false) ∧
    (∀ frames : List Frame, s.server.paired = false →
      (∀ g ∈ frames, ¬ (command C g = .pair ∧ g.pair_ret = C.GS_OK)) →
      (pair_check (main_loop C frames s).state.server).2 = 0) ∧
    (command C f = .unpair → f.unpair_ret = C.GS_OK →
      (pair_check (loop_body C f s).state.server).2 = 0) := by
  have hpc : ∀ server : SERVER_DATA,
      ((pair_check server).2 = 1 ↔ server.paired = true) ∧
      ((pair_check server).2 = 0 ↔ server.paired = false) := by
    intro server
    cases hp : server.paired
    · rw [pair_check_unpaired server hp]; simp
    · rw [pair_check_paired server hp]; simp
  refine ⟨fun hc => ?_, fun hc => ?_, (hpc _).1, (hpc _).2, ?_, fun hc hok => ?_⟩
  · rw [loop_body_paired, hc]
  · rw [loop_body_paired, hc]
  · intro frames hs hno
    exact (hpc _).2.2 (main_loop_unpaired C frames s hs hno)
  · refine (hpc _).2.2 ?_
    rw [loop_body_paired, hc]
    simp [hok]

/-- Witness of C4: a successful pairing sets the flag, a failed unpairing
keeps it, a successful unpairing clears it. -/
theorem paired_flag_follows_rpc_witness :
    (loop_body sampleConstants { sampleFrame with kDown := 4 }
      (sampleState false)).state.server.paired = true ∧
    (loop_body sampleConstants { sampleFrame with kDown := 8, unpair_ret := -1 }
      (sampleState true)).state.server.paired = true ∧
    (pair_check (loop_body sampleConstants { sampleFrame with kDown := 8 }
      (sampleState true)).state.server).2 = 0 :=
  ⟨(paired_flag_follows_rpc sampleConstants { sampleFrame with kDown := 4 }
      (sampleState false)).1 (by decide),
   (paired_flag_follows_rpc sampleConstants { sampleFrame with kDown := 8, unpair_ret := -1 }
      (sampleState true)).2.1 (by decide),
   (paired_flag_follows_rpc sampleConstants { sampleFrame with kDown := 8 }
      (sampleState true)).2.2.2.2.2 (by decide) (by decide)⟩

/-! ## C7 and C10: `get_app_id` and `stream` -/

theorem strcmp_chars_eq_zero : ∀ a b : List Char, strcmp_chars a b = 0 ↔ a = b
  | [], [] => by simp [strcmp_chars]
  | [], _ :: _ => by simp [strcmp_chars]
  | _ :: _, [] => by simp [strcmp_chars]
  | a :: as, b :: bs => by
    unfold strcmp_chars
    split_ifs with h1 h2
    · simp [h1, strcmp_chars_eq_zero as bs]
    · simp [h1]
    · simp [h1]

theorem strcmp_eq_zero (a b : String) : strcmp a b = 0 ↔ a = b := by
  unfold strcmp
  rw [strcmp_chars_eq_zero]
  exact ⟨fun h => String.ext h, fun h => by rw [h]⟩

theorem get_app_id_while_first (name : String) (a : APP_LIST) (post : List APP_LIST)
    (ha : a.name = name) :
    ∀ pre : List APP_LIST, (∀ b ∈ pre, b.name ≠ name) →
      get_app_id_while (pre ++ a :: post) name = a.id := by
  intro pre
  induction pre with
  | nil =>
    intro _
    simp [get_app_id_while, (strcmp_eq_zero a.name name).2 ha]
  | cons b pre ih =>
    intro h
    have hb : ¬ strcmp b.name name = 0 := fun e =>
      h b (List.mem_cons_self _ _) ((strcmp_eq_zero _ _).1 e)
    simp only [List.cons_append, get_app_id_while, hb, if_false]
    exact ih (fun c hc => h c (List.mem_cons_of_mem _ hc))

theorem get_app_id_while_none (name : String) :
    ∀ list : List APP_LIST, (∀ b ∈ list, b.name ≠ name) → get_app_id_while list name = -1 := by
  intro list
  induction list with
  | nil => intro _; rfl
  | cons b list ih =>
    intro h
    have hb : ¬ strcmp b.name name = 0 := fun e =>
      h b (List.mem_cons_self _ _) ((strcmp_eq_zero _ _).1 e)
    simp only [get_app_id_while, hb, if_false]
    exact ih (fun c hc => h c (List.mem_cons_of_mem _ hc))

theorem get_app_id_ok (C : Constants) (f : Frame) (name : String)
    (hok : f.applist_ret = C.GS_OK) :
    get_app_id C f name = ([.gs_applist], get_app_id_while f.applist name) := by
  simp [get_app_id, hok]

theorem get_app_id_nonneg (C : Constants) (f : Frame) (name : String)
    (h : 0 ≤ (get_app_id C f name).2) :
    get_app_id C f name = ([.gs_applist], get_app_id_while f.applist name) := by
  unfold get_app_id at h ⊢
  split_ifs at h ⊢
  · simp at h
  · rfl

theorem stream_not_found (C : Constants) (f : Frame) (config : CONFIGURATION) (system : Int)
    (dbg : Bool) (h : (get_app_id C f config.app).2 < 0) :
    stream C f config system dbg =
      { events := (get_app_id C f config.app).1 ++
          [.stderr ("Can't find app " ++ config.app ++ "\n"), .exit (-1)]
        exited := some (-1)
        connection_debug := dbg } := by
  unfold stream
  simp only [h, if_true]

theorem stream_start_failed (C : Constants) (f : Frame) (config : CONFIGURATION) (system : Int)
    (dbg : Bool) (hid : 0 ≤ (get_app_id C f config.app).2) (hret : f.start_app_ret < 0) :
    stream C f config system dbg =
      { events := [.gs_applist,
          .gs_start_app config.stream (get_app_id_while f.applist config.app) config.sops
            config.localaudio (stream_gamepad_mask f),
          .stderr (start_app_diagnostic C f config f.start_app_ret), .exit (-1)]
        exited := some (-1)
        connection_debug := dbg } := by
  have hg := get_app_id_nonneg C f config.app hid
  have hn : ¬ get_app_id_while f.applist config.app < 0 := by
    rw [hg] at hid
    exact not_lt.2 hid
  unfold stream
  simp only [hg, hn, hret, if_true, if_false]
  rfl

theorem stream_started (C : Constants) (f : Frame) (config : CONFIGURATION) (system : Int)
    (dbg : Bool) (hid : 0 ≤ (get_app_id C f config.app).2) :
    startAppCalls (stream C f config system dbg).events =
      [.gs_start_app config.stream (get_app_id_while f.applist config.app) config.sops
        config.localaudio (stream_gamepad_mask f)] := by
  by_cases hret : f.start_app_ret < 0
  · rw [stream_start_failed C f config system dbg hid hret]
    rfl
  · have hg := get_app_id_nonneg C f config.app hid
    have hn : ¬ get_app_id_while f.applist config.app < 0 := by
      rw [hg] at hid
      exact not_lt.2 hid
    unfold stream
    simp only [hg, hn, hret, if_false]
    split_ifs <;> rfl

theorem stream_exited (C : Constants) (f : Frame) (config : CONFIGURATION) (system : Int)
    (dbg : Bool) :
    (stream C f config system dbg).exited =
      if (get_app_id C f config.app).2 < 0 then some (-1)
      else if f.start_app_ret < 0 then some (-1) else none := by
  unfold stream
  dsimp only
  split_ifs <;> rfl

/-- C7 (as stated, refuted): a catalog whose entry `Steam` carries the id
`-3`.  The name matches and `get_app_id` returns `-3`, but `stream` reads the
negative value as "not found": it reports that the app cannot be found and
terminates, and `gs_start_app` is not called. -/
theorem negative_id_is_not_started :
    get_app_id sampleConstants { sampleFrame with applist := [⟨"Steam", -3⟩] } "Steam" =
      ([.gs_applist], -3) ∧
    (stream sampleConstants { sampleFrame with applist := [⟨"Steam", -3⟩] }
      { sampleConfig with app := "Steam" } 1 false).events =
      [.gs_applist, .stderr "Can't find app Steam\n", .exit (-1)] ∧
    startAppCalls (stream sampleConstants { sampleFrame with applist := [⟨"Steam", -3⟩] }
      { sampleConfig with app := "Steam" } 1 false).events = [] := by
  decide

/-- C7 (amended): when `gs_applist` succeeds, `get_app_id` returns the id of
the first entry whose name equals the requested name; if that id is not
negative it is the id of the one call of `gs_start_app`; if it is negative,
or if no entry has the requested name (`get_app_id` returns `-1`), `stream`
reports that the app cannot be found and terminates without calling
`gs_start_app`. -/
theorem app_resolution (C : Constants) (f : Frame) (config : CONFIGURATION) (system : Int)
    (dbg : Bool) (hok : f.applist_ret = C.GS_OK) :
    (∀ (pre : List APP_LIST) (a : APP_LIST) (post : List APP_LIST),
      f.applist = pre ++ a :: post → (∀ b ∈ pre, b.name ≠ config.app) → a.name = config.app →
      (get_app_id C f config.app).2 = a.id ∧
      (0 ≤ a.id → startAppCalls (stream C f config system dbg).events =
        [.gs_start_app config.stream a.id config.sops config.localaudio
          (stream_gamepad_mask f)]) ∧
      (a.id < 0 →
        (stream C f config system dbg).events =
          [.gs_applist, .stderr ("Can't find app " ++ config.app ++ "\n"), .exit (-1)] ∧
        startAppCalls (stream C f config system dbg).events = [])) ∧
    ((∀ b ∈ f.applist, b.name ≠ config.app) →
      (get_app_id C f config.app).2 = -1 ∧
      (stream C f config system dbg).events =
        [.gs_applist, .stderr ("Can't find app " ++ config.app ++ "\n"), .exit (-1)] ∧
      startAppCalls (stream C f config system dbg).events = []) := by
  have hg := get_app_id_ok C f config.app hok
  have hneg : (get_app_id C f config.app).2 < 0 →
      (stream C f config system dbg).events =
        [.gs_applist, .stderr ("Can't find app " ++ config.app ++ "\n"), .exit (-1)] ∧
      startAppCalls (stream C f config system dbg).events = [] := by
    intro h
    rw [stream_not_found C f config system dbg h, hg]
    exact ⟨rfl, rfl⟩
  constructor
  · intro pre a post hl hpre ha
    have hid : (get_app_id C f config.app).2 = a.id := by
      rw [hg, hl]
      exact get_app_id_while_first config.app a post ha pre hpre
    refine ⟨hid, fun h0 => ?_, fun h0 => hneg (by rw [hid]; exact h0)⟩
    have := stream_started C f config system dbg (by rw [hid]; exact h0)
    rw [this]
    rw [hg] at hid
    simp only at hid
    rw [hid]
  · intro hno
    have hid : (get_app_id C f config.app).2 = -1 := by
      rw [hg]
      exact get_app_id_while_none config.app f.applist hno
    exact ⟨hid, hneg (by rw [hid]; decide)⟩

/-- Witness of C7: the catalog `[("Steam",1),("Chrome",2)]` resolves `Chrome`
to the id 2, which is passed to `gs_start_app`, and for `Firefox` the app is
reported as not found and `gs_start_app` is not called. -/
theorem app_resolution_witness :
    startAppCalls (stream sampleConstants sampleFrame sampleConfig 1 false).events =
      [.gs_start_app sampleConfig.stream 2 true false 0] ∧
    (stream sampleConstants sampleFrame { sampleConfig with app := "Firefox" } 1 false).events =
      [.gs_applist, .stderr "Can't find app Firefox\n", .exit (-1)] :=
  ⟨((app_resolution sampleConstants sampleFrame sampleConfig 1 false rfl).1
      [⟨"Steam", 1⟩] ⟨"Chrome", 2⟩ [] rfl (by decide) rfl).2.1 (by decide),
   ((app_resolution sampleConstants sampleFrame { sampleConfig with app := "Firefox" } 1 false
      rfl).2 (by decide)).2.1⟩

/-- C10: when `gs_start_app` was called and returned a negative code,
`stream` writes one diagnostic to the error channel and terminates: its trace
is `gs_applist`, `gs_start_app`, the diagnostic and `exit(-1)`, so neither
`platform_start`, `LiStartConnection`, `LiStopConnection` nor `platform_stop`
is called.  The diagnostic is the 4K message for `GS_NOT_SUPPORTED_4K`, the
message with width, height and fps and the hint at the unsupported option for
`GS_NOT_SUPPORTED_MODE`, the string `gs_error` for `GS_ERROR`, and the
numeric code otherwise. -/
theorem start_app_failure (C : Constants) (f : Frame) (config : CONFIGURATION) (system : Int)
    (dbg : Bool) (hid : 0 ≤ (get_app_id C f config.app).2) (hret : f.start_app_ret < 0) :
    (stream C f config system dbg).events =
      [.gs_applist,
       .gs_start_app config.stream (get_app_id C f config.app).2 config.sops config.localaudio
         (stream_gamepad_mask f),
       .stderr (start_app_diagnostic C f config f.start_app_ret), .exit (-1)] ∧
    (stream C f config system dbg).exited = some (-1) ∧
    clientCalls (stream C f config system dbg).events =
      [.gs_applist,
       .gs_start_app config.stream (get_app_id C f config.app).2 config.sops config.localaudio
         (stream_gamepad_mask f)] ∧
    stderrOutput (stream C f config system dbg).events =
      [start_app_diagnostic C f config f.start_app_ret] ∧
    (f.start_app_ret = C.GS_NOT_SUPPORTED_4K →
      start_app_diagnostic C f config f.start_app_ret = "Server doesn't support 4K\n") ∧
    (f.start_app_ret ≠ C.GS_NOT_SUPPORTED_4K → f.start_app_ret = C.GS_NOT_SUPPORTED_MODE →
      start_app_diagnostic C f config f.start_app_ret =
        "Server doesn't support " ++ fmt_d config.stream.width ++ "x"
          ++ fmt_d config.stream.height ++ " (" ++ fmt_d config.stream.fps
          ++ " fps) or try --unsupported option\n") ∧
    (f.start_app_ret ≠ C.GS_NOT_SUPPORTED_4K → f.start_app_ret ≠ C.GS_NOT_SUPPORTED_MODE →
      f.start_app_ret = C.GS_ERROR →
      start_app_diagnostic C f config f.start_app_ret =
        "Gamestream error: " ++ f.gs_error ++ "\n") ∧
    (f.start_app_ret ≠ C.GS_NOT_SUPPORTED_4K → f.start_app_ret ≠ C.GS_NOT_SUPPORTED_MODE →
      f.start_app_ret ≠ C.GS_ERROR →
      start_app_diagnostic C f config f.start_app_ret =
        "Errorcode starting app: " ++ fmt_d f.start_app_ret ++ "\n") := by
  have hs := stream_start_failed C f config system dbg hid hret
  have hg : (get_app_id C f config.app).2 = get_app_id_while f.applist config.app := by
    rw [get_app_id_nonneg C f config.app hid]
  rw [hs, hg]
  refine ⟨rfl, rfl, rfl, rfl, ?_, ?_, ?_, ?_⟩
  · intro h
    unfold start_app_diagnostic
    rw [if_pos h]
  · intro h1 h2
    unfold start_app_diagnostic
    rw [if_neg h1, if_pos h2]
  · intro h1 h2 h3
    unfold start_app_diagnostic
    rw [if_neg h1, if_neg h2, if_pos h3]
  · intro h1 h2 h3
    unfold start_app_diagnostic
    rw [if_neg h1, if_neg h2, if_neg h3]

/-- Witness of C10: a 3840x2160 request answered with `GS_NOT_SUPPORTED_4K`:
the one diagnostic mentions 4K and no platform or connection call is made. -/
theorem start_app_failure_witness :
    stderrOutput (stream sampleConstants { sampleFrame with start_app_ret := -6 } sampleConfig
      1 false).events = ["Server doesn't support 4K\n"] ∧
    "4K".toList <:+: "Server doesn't support 4K\n".toList ∧
    clientCalls (stream sampleConstants { sampleFrame with start_app_ret := -6 } sampleConfig
      1 false).events = [.gs_applist, .gs_start_app sampleConfig.stream 2 true false 0] :=
  have h := start_app_failure sampleConstants { sampleFrame with start_app_ret := -6 }
    sampleConfig 1 false (by decide) (by decide)
  ⟨h.2.2.2.1.trans (congrArg (fun d => [d]) (h.2.2.2.2.1 (by decide))), by decide, h.2.2.1⟩

/-! ## C2 -/

theorem key_a_outcome (C : Constants) (f : Frame) (s : State) :
    (key_a C f s).outcome = .continues := by
  unfold key_a
  dsimp only
  split_ifs <;> rfl

theorem key_x_outcome (C : Constants) (f : Frame) (s : State) :
    (key_x C f s).outcome = .continues := by
  unfold key_x
  dsimp only
  split_ifs <;> rfl

theorem key_y_outcome (C : Constants) (f : Frame) (s : State) :
    (key_y C f s).outcome = .continues := by
  unfold key_y
  dsimp only
  split_ifs <;> rfl

theorem key_b_outcome (C : Constants) (f : Frame) (s : State) :
    (key_b C f s).outcome =
      if s.server.paired = false then .continues
      else if f.platform = 0 then .leaves
      else if (get_app_id C f s.config.app).2 < 0 then .exits (-1)
      else if f.start_app_ret < 0 then .exits (-1)
      else .continues := by
  cases hp : s.server.paired
  · unfold key_b
    simp [pair_check_unpaired s.server hp]
  · unfold key_b
    simp only [pair_check_paired s.server hp]
    by_cases hs : f.platform = 0
    · simp [hs]
    · simp only [ne_eq, one_ne_zero, not_false_eq_true, if_true, hs, if_false]
      have he := stream_exited C f
        { s.config with
          stream := { s.config.stream with
            supportsHevc := supportsHevc s.config.codec f.supports_hevc } }
        f.platform s.connection_debug
      split
      · rename_i status hst
        rw [hst] at he
        dsimp only at he
        split_ifs at he ⊢ <;> simp_all
      · rename_i hst
        rw [hst] at he
        dsimp only at he
        split_ifs at he ⊢ <;> simp_all

/-- C2 (as stated, refuted): three iterations whose command is Stream, not
Quit, on a paired handle.  With an unknown platform name the iteration ends
in `break` and the loop is left, so that the frame after it is not served;
with an app that is not in the catalog, and with a failing `gs_start_app`, it
ends in `exit(-1)`. -/
theorem stream_command_ends_loop :
    command sampleConstants { sampleFrame with kDown := 2, platform := 0 } = .stream ∧
    (loop_body sampleConstants { sampleFrame with kDown := 2, platform := 0 }
      (sampleState true)).outcome = .leaves ∧
    (loop_body sampleConstants { sampleFrame with kDown := 2, applist := [⟨"Steam", 1⟩] }
      (sampleState true)).outcome = .exits (-1) ∧
    (loop_body sampleConstants { sampleFrame with kDown := 2, start_app_ret := -6 }
      (sampleState true)).outcome = .exits (-1) ∧
    (main_loop sampleConstants
      [{ sampleFrame with kDown := 2, platform := 0 }, { sampleFrame with kDown := 4 }]
      (sampleState true)).ending = .left ∧
    (main_loop sampleConstants
      [{ sampleFrame with kDown := 2, platform := 0 }, { sampleFrame with kDown := 4 }]
      (sampleState true)).events.count Event.hidKeysDown = 1 := by
  decide

/-- C2 (amended): how one iteration ends, by command.  List, Pair, Unpair
and None always end with the loop continuing; Quit leaves the loop; Stream
continues when the handle is not paired, leaves the loop when the handle is
paired and the platform name is unknown, terminates the process with status
-1 when the app is not found or `gs_start_app` fails, and continues when the
stream ran to its end. -/
theorem loop_body_outcome (C : Constants) (f : Frame) (s : State) :
    (loop_body C f s).outcome =
      match command C f with
      | .list => .continues
      | .pair => .continues
      | .unpair => .continues
      | .none => .continues
      | .quit => .leaves
      | .stream =>
        if s.server.paired = false then .continues
        else if f.platform = 0 then .leaves
        else if (get_app_id C f s.config.app).2 < 0 then .exits (-1)
        else if f.start_app_ret < 0 then .exits (-1)
        else .continues := by
  show (dispatch C f s).outcome = _
  cases hc : command C f
  · rw [dispatch_list C f s hc, key_a_outcome]
  · rw [dispatch_stream C f s hc, key_b_outcome]
  · rw [dispatch_pair C f s hc, key_x_outcome]
  · rw [dispatch_unpair C f s hc, key_y_outcome]
  · rw [dispatch_quit C f s hc]
  · rw [dispatch_none C f s hc]

/-- Witness of C2: a Pair command whose RPC fails ends with the loop
continuing. -/
theorem loop_body_outcome_witness :
    (loop_body sampleConstants { sampleFrame with kDown := 4, pair_ret := -1 }
      (sampleState false)).outcome = .continues :=
  loop_body_outcome sampleConstants { sampleFrame with kDown := 4, pair_ret := -1 }
    (sampleState false)

/-! ## C5 -/

theorem gamepad_mask_for_zero (mask : Int) (fuel : Nat) :
    gamepad_mask_for 0 0 mask fuel = mask := by
  cases fuel <;> simp [gamepad_mask_for]

/-- C5 (the code at the failing input): `stream` fixes the controller count
at 0, so the loop body never runs and the mask handed to `gs_start_app` is
the content of the uninitialised local `gamepad_mask`, here 5 instead of 0.
The loop itself is right: started from mask 0 with a count `k` of at most 4
it yields `2^k - 1`. -/
theorem gamepad_mask_is_uninitialised :
    stream_gamepad_mask { sampleFrame with gamepad_mask := 5 } = 5 ∧
    startAppCalls (stream sampleConstants { sampleFrame with gamepad_mask := 5 } sampleConfig
      1 false).events = [.gs_start_app sampleConfig.stream 2 true false 5] ∧
    (∀ f : Frame, stream_gamepad_mask f = f.gamepad_mask) ∧
    (∀ k : Nat, k ≤ 4 → gamepad_mask_for k 0 0 5 = 2 ^ k - 1) := by
  refine ⟨by decide, by decide, fun f => gamepad_mask_for_zero _ _, ?_⟩
  intro k hk
  interval_cases k <;> decide

/-! ## C3 -/

/-- C3 (the code at the failing input): `gs_init` returns `GS_ERROR`.  `main`
writes the diagnostic and goes on: the state for the loop exists whatever
the return code, and with one frame carrying the Pair key the loop samples
the key and calls `gs_pair`. -/
theorem failed_init_enters_loop :
    (sampleStartup (-9)).init_ret = sampleConstants.GS_ERROR ∧
    stderrOutput (startup sampleConstants (sampleStartup (-9))).1 =
      ["Gamestream error: timeout\n"] ∧
    (∀ r : Int, ∃ s : State, (startup sampleConstants (sampleStartup r)).2 = .loop s) ∧
    Event.hidKeysDown ∈
      (main sampleConstants (sampleStartup (-9)) [{ sampleFrame with kDown := 4 }]).events ∧
    clientCalls
      (main sampleConstants (sampleStartup (-9)) [{ sampleFrame with kDown := 4 }]).events =
      [.gs_init (some "192.168.1.50") "sdmc:/switch/moonlight-switch/key" 2 false,
       .gs_pair "3675"] := by
  refine ⟨by decide, by decide, fun r => ⟨_, rfl⟩, by decide, by decide⟩

/-! ## C9 -/

theorem discoveries_append (l1 l2 : List Event) :
    discoveries (l1 ++ l2) = discoveries l1 + discoveries l2 := by
  induction l1 with
  | nil => simp [discoveries]
  | cons e l1 ih =>
    cases e <;> simp [discoveries, ih]
    omega

theorem initAddresses_append (l1 l2 : List Event) :
    initAddresses (l1 ++ l2) = initAddresses l1 ++ initAddresses l2 := by
  induction l1 with
  | nil => simp [initAddresses]
  | cons e l1 ih =>
    cases e <;> simp [initAddresses, ih]

theorem preamble_quiet (C : Constants) (E : Startup) :
    discoveries (preamble C E) = 0 ∧ initAddresses (preamble C E) = [] := by
  unfold preamble
  split_ifs <;> exact ⟨rfl, rfl⟩


theorem host_config_events_quiet (E : Startup) (path : String) :
    discoveries (host_config_events E path) = 0 ∧
    initAddresses (host_config_events E path) = [] := by
  unfold host_config_events
  split_ifs <;> exact ⟨rfl, rfl⟩

theorem connect_events_calls (C : Constants) (E : Startup) (config : CONFIGURATION) :
    discoveries (connect_events C E config) = 0 ∧
    initAddresses (connect_events C E config) = [config.address] := by
  unfold connect_events init_diagnostic
  dsimp only
  split_ifs <;> exact ⟨rfl, rfl⟩

theorem utf8ByteSize_append (a b : String) :
    (a ++ b).utf8ByteSize = a.utf8ByteSize + b.utf8ByteSize := by
  cases a
  cases b
  show String.utf8ByteSize ⟨_ ++ _⟩ = _
  simp

/-- The formatted path is 40 bytes longer than the address. -/
theorem host_config_path_size (a : String) :
    (host_config_path (some a)).utf8ByteSize = 40 + a.utf8ByteSize := by
  have h1 : (MOONLIGHT_DATA_DIR ++ "hosts/").utf8ByteSize = 36 := by decide
  have h2 : ".ini".utf8ByteSize = 4 := by decide
  show ((MOONLIGHT_DATA_DIR ++ "hosts/") ++ a ++ ".ini").utf8ByteSize = _
  rw [utf8ByteSize_append, utf8ByteSize_append, h1, h2]
  omega

/-- An address of at most 87 bytes fits the buffer. -/
theorem host_config_file_fits (a : String) (h : a.utf8ByteSize ≤ 87) :
    host_config_file (some a) = some (MOONLIGHT_DATA_DIR ++ "hosts/" ++ a ++ ".ini") := by
  unfold host_config_file HOST_CONFIG_FILE_SIZE
  rw [host_config_path_size]
  rw [if_pos (by omega)]
  rfl

/-- An address of more than 87 bytes overflows the buffer: the start-up ends
in undefined behaviour before `gs_init`. -/
theorem host_config_file_overflow (a : String) (h : 87 < a.utf8ByteSize) :
    host_config_file (some a) = none := by
  unfold host_config_file HOST_CONFIG_FILE_SIZE
  rw [host_config_path_size]
  rw [if_neg (by omega)]

/-- With an address of more than 87 bytes set by the global file the
start-up stops at the `sprintf`: no `gs_init`, no loop, no defined status. -/
theorem startup_overflow (C : Constants) (E : Startup) (a : String)
    (ha : (global_config E).address = some a) (h : 87 < a.utf8ByteSize) :
    (startup C E).2 = .overflow ∧ initAddresses (startup C E).1 = [] ∧
    ∀ frames : List Frame, (main C E frames).status = none := by
  have hd : discover E (global_config E) = ([], some (global_config E)) := by
    unfold discover
    rw [ha]
  have hf : host_config_file (global_config E).address = none := by
    rw [ha]
    exact host_config_file_overflow a h
  have hst : startup C E = (preamble C E, .overflow) := by
    unfold startup
    simp only [hd, hf, List.append_nil]
  refine ⟨by rw [hst], by rw [hst]; exact (preamble_quiet C E).2, fun frames => ?_⟩
  unfold main
  simp only [hst]

/-- C9 (as stated, refuted): two start-ups.  In the first the configuration
has no address and the address buffer cannot be allocated: `main` returns
without a single discovery.  In the second the global file sets the address
`10.0.0.1` and the readable host file `hosts/10.0.0.1.ini` sets another one:
no discovery is made, and `gs_init` is called with `10.0.0.2`. -/
theorem host_location_exceptions :
    (global_config (discoveryStartup false "192.168.1.50")).address = none ∧
    discoveries (main sampleConstants (discoveryStartup false "192.168.1.50")
      [sampleFrame]).events = 0 ∧
    (global_config overrideStartup).address = some "10.0.0.1" ∧
    discoveries (main sampleConstants overrideStartup []).events = 0 ∧
    initAddresses (main sampleConstants overrideStartup []).events = [some "10.0.0.2"] := by
  decide

/-- C9 (amended): host location at start-up, for addresses of at most 87
bytes, those for which the path of the host file fits the 128 bytes of
`host_config_file`.  With such an address set by the global file no discovery
is made, the host file is `MOONLIGHT_DATA_DIR/hosts/<address>.ini`, and
`gs_init` receives the address of the configuration after the host file was
read: the address unchanged when that file is unreadable or leaves the
address alone.  With no address: if the address buffer cannot be allocated
`main` returns with no discovery, no `gs_init` and no loop; otherwise
discovery is made once, and if it wrote no address `main` returns with no
`gs_init` and no loop, while an address of at most 87 bytes that it wrote
becomes `config.address` and names the host file. -/
theorem host_location (C : Constants) (E : Startup) :
    (∀ a : String, (global_config E).address = some a → a.utf8ByteSize ≤ 87 →
      discoveries (startup C E).1 = 0 ∧
      host_config_file (global_config E).address =
        some (MOONLIGHT_DATA_DIR ++ "hosts/" ++ a ++ ".ini") ∧
      (startup C E).1 = preamble C E ++
        host_config_events E (MOONLIGHT_DATA_DIR ++ "hosts/" ++ a ++ ".ini") ++
        connect_events C E
          (host_config E (global_config E) (MOONLIGHT_DATA_DIR ++ "hosts/" ++ a ++ ".ini")) ∧
      initAddresses (startup C E).1 =
        [(host_config E (global_config E)
          (MOONLIGHT_DATA_DIR ++ "hosts/" ++ a ++ ".ini")).address] ∧
      ((E.access (MOONLIGHT_DATA_DIR ++ "hosts/" ++ a ++ ".ini") = false ∨
        (E.config_parse (MOONLIGHT_DATA_DIR ++ "hosts/" ++ a ++ ".ini")
          (global_config E)).address = some a) →
        initAddresses (startup C E).1 = [some a])) ∧
    ((global_config E).address = none → E.malloc_ok = false →
      ∀ frames : List Frame, main C E frames =
        { events := preamble C E ++ [.malloc, .perror "Not enough memory"], status := some 0 }) ∧
    ((global_config E).address = none → E.malloc_ok = true → E.discovered = "" →
      ∀ frames : List Frame, main C E frames =
        { events := preamble C E ++
            [.malloc, .stdout "Searching for server...\n", .gs_discover_server,
             .stderr "Autodiscovery failed. Specify an IP address next time.\n"],
          status := some 0 }) ∧
    ((global_config E).address = none → E.malloc_ok = true → E.discovered ≠ "" →
      E.discovered.utf8ByteSize ≤ 87 →
      (discover E (global_config E)).2 =
        some { global_config E with address := some E.discovered } ∧
      discoveries (startup C E).1 = 1 ∧
      host_config_file (some E.discovered) =
        some (MOONLIGHT_DATA_DIR ++ "hosts/" ++ E.discovered ++ ".ini") ∧
      (startup C E).1 = preamble C E ++
        [.malloc, .stdout "Searching for server...\n", .gs_discover_server] ++
        host_config_events E (MOONLIGHT_DATA_DIR ++ "hosts/" ++ E.discovered ++ ".ini") ++
        connect_events C E
          (host_config E { global_config E with address := some E.discovered }
            (MOONLIGHT_DATA_DIR ++ "hosts/" ++ E.discovered ++ ".ini")) ∧
      Event.access (MOONLIGHT_DATA_DIR ++ "hosts/" ++ E.discovered ++ ".ini") ∈
        (startup C E).1) := by
  refine ⟨?_, ?_, ?_, ?_⟩
  · intro a ha hlen
    have hd : discover E (global_config E) = ([], some (global_config E)) := by
      unfold discover
      rw [ha]
    have hf : host_config_file (global_config E).address =
        some (MOONLIGHT_DATA_DIR ++ "hosts/" ++ a ++ ".ini") := by
      rw [ha]
      exact host_config_file_fits a hlen
    have hst : (startup C E).1 = preamble C E ++
        host_config_events E (MOONLIGHT_DATA_DIR ++ "hosts/" ++ a ++ ".ini") ++
        connect_events C E
          (host_config E (global_config E) (MOONLIGHT_DATA_DIR ++ "hosts/" ++ a ++ ".ini")) := by
      unfold startup
      simp only [hd, hf, List.append_nil]
    have hi : initAddresses (startup C E).1 =
        [(host_config E (global_config E)
          (MOONLIGHT_DATA_DIR ++ "hosts/" ++ a ++ ".ini")).address] := by
      rw [hst, initAddresses_append, initAddresses_append, (preamble_quiet C E).2,
        (host_config_events_quiet E _).2, (connect_events_calls C E _).2]
      rfl
    refine ⟨?_, hf, hst, hi, ?_⟩
    · rw [hst, discoveries_append, discoveries_append, (preamble_quiet C E).1,
        (host_config_events_quiet E _).1, (connect_events_calls C E _).1]
    · intro h
      rw [hi]
      unfold host_config
      rcases h with h | h
      · simp [h, ha]
      · split_ifs
        · rw [h]
        · rw [ha]
  · intro ha hm frames
    have hd : discover E (global_config E) = ([.malloc, .perror "Not enough memory"], none) := by
      unfold discover
      rw [ha]
      simp [hm]
    unfold main startup
    simp only [hd]
  · intro ha hm hdis frames
    have hd : discover E (global_config E) =
        ([.malloc, .stdout "Searching for server...\n", .gs_discover_server,
          .stderr "Autodiscovery failed. Specify an IP address next time.\n"], none) := by
      unfold discover
      rw [ha]
      simp [hm, hdis]
    unfold main startup
    simp only [hd]
  · intro ha hm hdis hlen
    have hd : discover E (global_config E) =
        ([.malloc, .stdout "Searching for server...\n", .gs_discover_server],
          some { global_config E with address := some E.discovered }) := by
      unfold discover
      rw [ha]
      simp [hm, hdis]
    have hf := host_config_file_fits E.discovered hlen
    have hst : (startup C E).1 = preamble C E ++
        [.malloc, .stdout "Searching for server...\n", .gs_discover_server] ++
        host_config_events E (MOONLIGHT_DATA_DIR ++ "hosts/" ++ E.discovered ++ ".ini") ++
        connect_events C E
          (host_config E { global_config E with address := some E.discovered }
            (MOONLIGHT_DATA_DIR ++ "hosts/" ++ E.discovered ++ ".ini")) := by
      unfold startup
      simp only [hd, hf]
    refine ⟨by rw [hd], ?_, hf, hst, ?_⟩
    · rw [hst, discoveries_append, discoveries_append, discoveries_append,
        (preamble_quiet C E).1, (host_config_events_quiet E _).1, (connect_events_calls C E _).1]
      rfl
    · rw [hst]
      have hmem : Event.access (MOONLIGHT_DATA_DIR ++ "hosts/" ++ E.discovered ++ ".ini") ∈
          host_config_events E (MOONLIGHT_DATA_DIR ++ "hosts/" ++ E.discovered ++ ".ini") := by
        unfold host_config_events
        split_ifs <;> exact List.mem_cons_self _ _
      exact List.mem_append_left _ (List.mem_append_right _ hmem)

/-- Witness of C9: discovery finds `192.168.1.50`: it is made once, the
address becomes `config.address`, and the host file is
`sdmc:/switch/moonlight-switch/hosts/192.168.1.50.ini`. -/
theorem host_location_witness :
    (discover (discoveryStartup true "192.168.1.50")
      (global_config (discoveryStartup true "192.168.1.50"))).2 =
      some { global_config (discoveryStartup true "192.168.1.50") with
        address := some "192.168.1.50" } ∧
    discoveries (startup sampleConstants (discoveryStartup true "192.168.1.50")).1 = 1 ∧
    host_config_file (some "192.168.1.50") =
      some "sdmc:/switch/moonlight-switch/hosts/192.168.1.50.ini" :=
  have h := (host_location sampleConstants (discoveryStartup true "192.168.1.50")).2.2.2
    rfl rfl (by decide) (by decide)
  ⟨h.1, h.2.1, by decide⟩

end Moonlight
